import Mathlib

/-!
Verification of the sokol_fetch.h asynchronous file loading engine
(threaded native platform build, `_SFETCH_HAS_THREADS`).

The C sources are embedded shallowly:
- machine integers become Nat with explicit reduction mod 2^32 / 2^64 at the
  operations where the C code can wrap (generation counters, uint64 offset
  arithmetic);
- the slot-id ring buffers keep their head/tail/modulo representation;
- the item pool's backing array, free-index stack and generation counters
  become lists;
- pointers that are only compared against NULL become Nat (0 is NULL);
- the file backend is a function from paths to an optional file size, an
  open file handle carries the size obtained from it, and a read of
  num_bytes at offset succeeds exactly when offset + num_bytes lies within
  the file, which is the behavior of fopen/fseek/fread on a regular file;
- the IO worker thread becomes an explicit step (one loop iteration of
  _sfetch_channel_thread_func) that can be interleaved with the public API
  calls of the user thread, which is the set of schedules the lock-protected
  queue hand-off admits;
- the user response callback is recorded in a log instead of re-entering
  the engine.
-/

set_option maxHeartbeats 1000000
set_option maxRecDepth 100000

namespace SokolFetch

/-- Configuration define SFETCH_MAX_PATH (default 1024, including 0-terminator). -/
def SFETCH_MAX_PATH : Nat := 1024

/-- Configuration define SFETCH_MAX_USERDATA_UINT64 (default 16). -/
def SFETCH_MAX_USERDATA_UINT64 : Nat := 16

/-- Configuration define SFETCH_MAX_CHANNELS (default 16). -/
def SFETCH_MAX_CHANNELS : Nat := 16

/-- The lane value of an item that has not been admitted (0xFFFFFFFF). -/
def _SFETCH_INVALID_LANE : Nat := 4294967295

/-- 2^32, the modulus of C uint32_t arithmetic. -/
def U32_MOD : Nat := 4294967296

/-- 2^64, the modulus of C uint64_t arithmetic. -/
def U64_MOD : Nat := 18446744073709551616

/-- C uint64_t addition. -/
def u64_add (a b : Nat) : Nat := (a + b) % U64_MOD

/-- C uint64_t subtraction (wraps when b is larger than a). -/
def u64_sub (a b : Nat) : Nat := (a % U64_MOD + (U64_MOD - b % U64_MOD)) % U64_MOD

/-- _sfetch_make_id: compose a 32-bit slot id out of a 16-bit slot index in the
low bits and the low 16 bits of the generation counter in the high bits. -/
def _sfetch_make_id (index gen_ctr : Nat) : Nat :=
  ((gen_ctr <<< 16) % U32_MOD) + (index % 65536)

/-- _sfetch_slot_index: extract the slot index (slot_id and 0xFFFF). -/
def _sfetch_slot_index (slot_id : Nat) : Nat := slot_id % 65536

/-! ## The circular slot-id message queue (_sfetch_ring_t) -/

/-- _sfetch_ring_t: head/tail indices into a backing buffer of num entries,
one entry kept unused to distinguish full from empty. -/
structure Ring where
  head : Nat
  tail : Nat
  num : Nat
  buf : List Nat
  deriving Repr, DecidableEq, Inhabited

/-- _sfetch_ring_wrap. -/
def _sfetch_ring_wrap (rb : Ring) (i : Nat) : Nat := i % rb.num

/-- _sfetch_ring_init for num_slots usable slots (allocates num_slots+1 entries). -/
def _sfetch_ring_init (num_slots : Nat) : Ring :=
  { head := 0, tail := 0, num := num_slots + 1, buf := List.replicate (num_slots + 1) 0 }

/-- _sfetch_ring_full. -/
def _sfetch_ring_full (rb : Ring) : Bool := _sfetch_ring_wrap rb (rb.head + 1) == rb.tail

/-- _sfetch_ring_empty. -/
def _sfetch_ring_empty (rb : Ring) : Bool := rb.head == rb.tail

/-- _sfetch_ring_count. -/
def _sfetch_ring_count (rb : Ring) : Nat :=
  if rb.head ≥ rb.tail then rb.head - rb.tail else (rb.head + rb.num) - rb.tail

/-- _sfetch_ring_enqueue (the source asserts the ring is not full). -/
def _sfetch_ring_enqueue (rb : Ring) (slot_id : Nat) : Ring :=
  { rb with buf := rb.buf.set rb.head slot_id, head := _sfetch_ring_wrap rb (rb.head + 1) }

/-- _sfetch_ring_dequeue (the source asserts the ring is not empty); returns the
dequeued slot id together with the advanced ring. -/
def _sfetch_ring_dequeue (rb : Ring) : Nat × Ring :=
  (rb.buf.getD rb.tail 0, { rb with tail := _sfetch_ring_wrap rb (rb.tail + 1) })

/-- _sfetch_ring_peek at logical position index from the tail. -/
def _sfetch_ring_peek (rb : Ring) (index : Nat) : Nat :=
  rb.buf.getD (_sfetch_ring_wrap rb (rb.tail + index)) 0

/-! ## Request items and the request pool -/

/-- The request lifecycle states (_sfetch_state_t). -/
inductive SfetchState where
  | INITIAL
  | ALLOCATED
  | OPENING
  | OPENED
  | FETCHING
  | FETCHED
  | PAUSED
  | FAILED
  deriving Repr, DecidableEq, Inhabited

/-- _sfetch_buffer_t: caller-provided pointer/size pair (ptr 0 is NULL). -/
structure SfetchBuffer where
  ptr : Nat
  size : Nat
  deriving Repr, DecidableEq, Inhabited

/-- _sfetch_item_user_t: the user-thread side of a request item. The inline
user-data byte block itself is uninterpreted; only its size is kept. -/
structure ItemUser where
  pause : Bool
  cont : Bool
  cancel : Bool
  content_size : Nat
  content_offset : Nat
  fetched_size : Nat
  finished : Bool
  user_data_size : Nat
  deriving Repr, DecidableEq, Inhabited

/-- _sfetch_item_thread_t: the IO-thread side of a request item. The
file handle of an open file carries the file size the backend reported. -/
structure ItemThread where
  content_size : Nat
  content_offset : Nat
  fetched_size : Nat
  failed : Bool
  finished : Bool
  file_handle : Option Nat
  deriving Repr, DecidableEq, Inhabited

/-- _sfetch_item_t. -/
structure Item where
  handle : Nat
  state : SfetchState
  channel : Nat
  lane : Nat
  callback : Bool
  buffer : SfetchBuffer
  thread : ItemThread
  user : ItemUser
  path : List Char
  deriving Repr, DecidableEq, Inhabited

/-- A zeroed item, the result of memset(item, 0, sizeof(_sfetch_item_t)). -/
def _sfetch_item_zero : Item :=
  { handle := 0
    state := .INITIAL
    channel := 0
    lane := 0
    callback := false
    buffer := { ptr := 0, size := 0 }
    thread := { content_size := 0, content_offset := 0, fetched_size := 0,
                failed := false, finished := false, file_handle := none }
    user := { pause := false, cont := false, cancel := false, content_size := 0,
              content_offset := 0, fetched_size := 0, finished := false,
              user_data_size := 0 }
    path := [] }

/-- sfetch_request_t: the caller-built request record. Raw pointers that are
only tested against NULL are kept as presence information. -/
structure SfetchRequest where
  channel : Nat
  path : Option (List Char)
  callback : Bool
  buffer_ptr : Nat
  buffer_size : Nat
  user_data_ptr : Bool
  user_data_size : Nat
  deriving Repr, DecidableEq, Inhabited

/-- _sfetch_path_copy and _sfetch_path_make: copy the path when it is non-NULL
and shorter than SFETCH_MAX_PATH, otherwise clear the destination. -/
def _sfetch_path_make (src : Option (List Char)) : List Char :=
  match src with
  | some s => if s.length < SFETCH_MAX_PATH then s else []
  | none => []

/-- _sfetch_item_init: fill a zeroed item from a request descriptor. -/
def _sfetch_item_init (slot_id : Nat) (request : SfetchRequest) : Item :=
  { _sfetch_item_zero with
    handle := slot_id
    state := .INITIAL
    channel := request.channel
    lane := _SFETCH_INVALID_LANE
    callback := request.callback
    buffer := { ptr := request.buffer_ptr, size := request.buffer_size }
    path := _sfetch_path_make request.path
    user := if request.user_data_ptr ∧ 0 < request.user_data_size ∧
               request.user_data_size ≤ SFETCH_MAX_USERDATA_UINT64 * 8 then
              { _sfetch_item_zero.user with user_data_size := request.user_data_size }
            else _sfetch_item_zero.user }

/-- _sfetch_pool_t: items array (slot 0 reserved), free-index stack (head of
the list is the top of the stack), per-slot generation counters. -/
structure Pool where
  size : Nat
  items : List Item
  free_slots : List Nat
  gen_ctrs : List Nat
  valid : Bool
  deriving Repr, DecidableEq, Inhabited

/-- _sfetch_pool_init: num_items usable items; the free stack is filled from
index size-1 down to 1, so index 1 ends on top. -/
def _sfetch_pool_init (num_items : Nat) : Pool :=
  { size := num_items + 1
    items := List.replicate (num_items + 1) _sfetch_item_zero
    free_slots := List.range' 1 num_items
    gen_ctrs := List.replicate (num_items + 1) 0
    valid := true }

/-- _sfetch_pool_item_alloc: pop a free slot index, bump its generation
counter (uint32), build the composite id, initialize the item and mark it
ALLOCATED. Returns the invalid id 0 when the pool is exhausted. -/
def _sfetch_pool_item_alloc (pool : Pool) (request : SfetchRequest) : Nat × Pool :=
  match pool.free_slots with
  | slot_index :: rest =>
      let gen := (pool.gen_ctrs.getD slot_index 0 + 1) % U32_MOD
      let slot_id := _sfetch_make_id slot_index gen
      let item := { _sfetch_item_init slot_id request with state := .ALLOCATED }
      (slot_id,
       { pool with
         free_slots := rest
         gen_ctrs := pool.gen_ctrs.set slot_index gen
         items := pool.items.set slot_index item })
  | [] => (_sfetch_make_id 0 0, pool)

/-- _sfetch_pool_item_free: zero the item and push its index back. -/
def _sfetch_pool_item_free (pool : Pool) (slot_id : Nat) : Pool :=
  let slot_index := _sfetch_slot_index slot_id
  { pool with
    items := pool.items.set slot_index _sfetch_item_zero
    free_slots := slot_index :: pool.free_slots }

/-- _sfetch_pool_item_lookup: return the item only when the stored handle
matches the full composite id (generation included). -/
def _sfetch_pool_item_lookup (pool : Pool) (slot_id : Nat) : Option Item :=
  if slot_id ≠ 0 then
    let item := pool.items.getD (_sfetch_slot_index slot_id) _sfetch_item_zero
    if item.handle == slot_id then some item else none
  else none

/-- Write an item back through its slot id (the C code mutates the item in
place through the pointer obtained from a successful lookup). -/
def _sfetch_pool_item_set (pool : Pool) (slot_id : Nat) (item : Item) : Pool :=
  { pool with items := pool.items.set (_sfetch_slot_index slot_id) item }

/-- Look up an item and mutate it in place; the call sites in the C code
assert that the lookup succeeds, so a failed lookup leaves the pool alone. -/
def _sfetch_pool_item_update (pool : Pool) (slot_id : Nat) (f : Item → Item) : Pool :=
  match _sfetch_pool_item_lookup pool slot_id with
  | some item => _sfetch_pool_item_set pool slot_id (f item)
  | none => pool

/-- sfetch_handle_valid on the pool: h is valid iff it is non-zero and the
generation-checked lookup succeeds. -/
def sfetch_handle_valid (pool : Pool) (h : Nat) : Bool :=
  if h = 0 then false else (_sfetch_pool_item_lookup pool h).isSome

/-- _sfetch_validate_request (the SOKOL_DEBUG branch; the checks run in
source order and the first failed check rejects the request). -/
def _sfetch_validate_request (num_channels : Nat) (req : SfetchRequest) : Bool :=
  if req.channel ≥ num_channels then false
  else match req.path with
  | none => false
  | some path =>
    if path.length ≥ SFETCH_MAX_PATH - 1 then false
    else if ¬req.callback then false
    else if req.user_data_ptr ∧ req.user_data_size = 0 then false
    else if ¬req.user_data_ptr ∧ 0 < req.user_data_size then false
    else if req.user_data_size > SFETCH_MAX_USERDATA_UINT64 * 8 then false
    else true

/-! ## File backend (POSIX branch)

A file system maps a path to the size of the file stored there (none when
fopen would fail). An open file handle carries the size that
_sfetch_file_size reports for it. -/

/-- The file-system parameter of the model: fopen succeeds iff the path maps
to some file size. -/
def FileSys : Type := List Char → Option Nat

/-- _sfetch_file_open. -/
def _sfetch_file_open (fs : FileSys) (path : List Char) : Option Nat := fs path

/-- _sfetch_file_read: fread of num_bytes at offset from a regular file of
the handle's size succeeds iff the range lies inside the file. -/
def _sfetch_file_read (file_size offset num_bytes : Nat) : Bool :=
  offset + num_bytes ≤ file_size

/-! ## The per-channel request handler for native platforms
(_sfetch_request_handler, the _SFETCH_HAS_THREADS version)

The function runs on the IO thread. It reads the item state into a local
variable, so the OPENING to FETCHING fall-through changes only the local
state; item.state itself is written back unchanged. Besides the updated
pool the embedding returns whether the asserted precondition
content_size > content_offset of the FETCHING branch held (vacuously true
when the branch is not entered). -/

/-- _sfetch_request_handler. -/
def _sfetch_request_handler (fs : FileSys) (pool : Pool) (slot_id : Nat) :
    Pool × Bool :=
  match _sfetch_pool_item_lookup pool slot_id with
  | none => (pool, true)
  | some item =>
    if item.thread.failed then (pool, true)
    else
      -- OPENING branch
      match
        (if item.state = .OPENING then
          match _sfetch_file_open fs item.path with
          | some sz =>
              ((if item.buffer.ptr ≠ 0 then SfetchState.FETCHING else item.state),
               { item.thread with file_handle := some sz, content_size := sz })
          | none =>
              (item.state, { item.thread with failed := true, finished := true })
        else (item.state, item.thread) : SfetchState × ItemThread)
      with
      | (state, th) =>
      -- FETCHING branch (may be reached by fall-through from OPENING)
      if state = .FETCHING then
        let assert_ok := decide (th.content_offset < th.content_size)
        let th2 : ItemThread :=
          if item.buffer.ptr = 0 ∨ item.buffer.size = 0 then
            { th with failed := true }
          else
            let bytes_to_read0 := u64_sub th.content_size th.content_offset
            let bytes_to_read :=
              if bytes_to_read0 > item.buffer.size then item.buffer.size
              else bytes_to_read0
            let offset := th.content_offset
            if _sfetch_file_read (th.file_handle.getD 0) offset bytes_to_read then
              { th with fetched_size := bytes_to_read,
                        content_offset := u64_add offset bytes_to_read }
            else { th with failed := true }
        let th3 : ItemThread :=
          if th2.failed ∨ th2.content_offset ≥ th2.content_size then
            { th2 with file_handle := none, finished := true }
          else th2
        (_sfetch_pool_item_set pool slot_id { item with thread := th3 }, assert_ok)
      else
        (_sfetch_pool_item_set pool slot_id { item with thread := th }, true)

/-! ## Channels -/

/-- _sfetch_channel_t (the back-pointer to the context and the thread
primitives are not part of the data model; the request handler is passed
explicitly where needed). -/
structure Channel where
  free_lanes : Ring
  user_sent : Ring
  user_incoming : Ring
  user_outgoing : Ring
  thread_incoming : Ring
  thread_outgoing : Ring
  valid : Bool
  deriving Repr, DecidableEq, Inhabited

/-- _sfetch_channel_init: allocate the rings and enqueue the lane ids
0 .. num_lanes-1 into the free-lanes ring. -/
def _sfetch_channel_init (num_items num_lanes : Nat) : Channel :=
  { free_lanes := (List.range num_lanes).foldl
      (fun rb lane => _sfetch_ring_enqueue rb lane) (_sfetch_ring_init num_lanes)
    user_sent := _sfetch_ring_init num_items
    user_incoming := _sfetch_ring_init num_lanes
    user_outgoing := _sfetch_ring_init num_lanes
    thread_incoming := _sfetch_ring_init num_lanes
    thread_outgoing := _sfetch_ring_init num_lanes
    valid := true }

/-- _sfetch_channel_send: enqueue into the sent queue unless it is full. -/
def _sfetch_channel_send (chn : Channel) (slot_id : Nat) : Bool × Channel :=
  if ¬_sfetch_ring_full chn.user_sent then
    (true, { chn with user_sent := _sfetch_ring_enqueue chn.user_sent slot_id })
  else
    (false, chn)

/-- One iteration of the admission loop in _sfetch_channel_dowork: pop one id
from the sent queue and one lane from the free-lanes queue, store the lane in
the item, push the id into the user-incoming queue. -/
def _sfetch_admit_one (pool : Pool) (chn : Channel) : Pool × Channel :=
  match _sfetch_ring_dequeue chn.user_sent, _sfetch_ring_dequeue chn.free_lanes with
  | (slot_id, sent'), (lane, lanes') =>
    (_sfetch_pool_item_update pool slot_id (fun it => { it with lane := lane }),
     { chn with
       user_sent := sent'
       free_lanes := lanes'
       user_incoming := _sfetch_ring_enqueue chn.user_incoming slot_id })

/-- The admission loop, iterated num_move times. -/
def _sfetch_admit_loop : Nat → Pool → Channel → Pool × Channel
  | 0, pool, chn => (pool, chn)
  | n + 1, pool, chn =>
      match _sfetch_admit_one pool chn with
      | (pool', chn') => _sfetch_admit_loop n pool' chn'

/-- The admission pass of _sfetch_channel_dowork: move
min(sent.count, free_lanes.count) items from sent to user-incoming. -/
def _sfetch_channel_admission (pool : Pool) (chn : Channel) : Pool × Channel :=
  _sfetch_admit_loop
    (if _sfetch_ring_count chn.user_sent < _sfetch_ring_count chn.free_lanes
     then _sfetch_ring_count chn.user_sent else _sfetch_ring_count chn.free_lanes)
    pool chn

/-- The per-item flag/state transition of the user-incoming pass of
_sfetch_channel_dowork (applied through a peek, the queue itself is not
changed). -/
def _sfetch_incoming_update (item : Item) : Item :=
  let item :=
    if item.user.pause then
      { item with state := .PAUSED, user := { item.user with pause := false } }
    else item
  let item :=
    if item.user.cont then
      let item := if item.state = .PAUSED then { item with state := .FETCHED } else item
      { item with user := { item.user with cont := false } }
    else item
  let item :=
    if item.user.cancel then
      { item with state := .FAILED, user := { item.user with finished := true } }
    else item
  match item.state with
  | .ALLOCATED => { item with state := .OPENING }
  | .OPENED => { item with state := .FETCHING }
  | .FETCHED => { item with state := .FETCHING }
  | _ => item

/-- The user-incoming pass of _sfetch_channel_dowork: apply the flag/state
transition to every item whose id sits in the user-incoming queue. -/
def _sfetch_incoming_pass (pool : Pool) (chn : Channel) : Pool :=
  (List.range (_sfetch_ring_count chn.user_incoming)).foldl
    (fun pool i =>
      _sfetch_pool_item_update pool (_sfetch_ring_peek chn.user_incoming i)
        _sfetch_incoming_update)
    pool

/-- The drain loop shared by _sfetch_thread_enqueue_incoming and
_sfetch_thread_dequeue_outgoing: move ids from src to dst while dst is not
full and src is not empty (fuel-bounded; the fuel src.num exceeds any
possible count). -/
def _sfetch_ring_move : Nat → Ring → Ring → Ring × Ring
  | 0, src, dst => (src, dst)
  | fuel + 1, src, dst =>
      if ¬_sfetch_ring_full dst ∧ ¬_sfetch_ring_empty src then
        match _sfetch_ring_dequeue src with
        | (slot_id, src') => _sfetch_ring_move fuel src' (_sfetch_ring_enqueue dst slot_id)
      else (src, dst)

/-- sfetch_response_t: the snapshot passed to the response callback. The
user-data view is uninterpreted and not part of the record. -/
structure SfetchResponse where
  handle : Nat
  opened : Bool
  fetched : Bool
  paused : Bool
  finished : Bool
  failed : Bool
  cancelled : Bool
  channel : Nat
  lane : Nat
  path : List Char
  content_size : Nat
  content_offset : Nat
  fetched_size : Nat
  buffer_ptr : Nat
  buffer_size : Nat
  deriving Repr, DecidableEq, Inhabited

/-- The response snapshot built in the outgoing drain of
_sfetch_channel_dowork from the item after its user-side fields were updated
and its state transition was applied. -/
def _sfetch_make_response (slot_id : Nat) (item : Item) : SfetchResponse :=
  { handle := slot_id
    opened := item.state == .OPENED
    fetched := item.state == .FETCHED
    paused := item.state == .PAUSED
    finished := item.user.finished
    failed := item.state == .FAILED
    cancelled := item.user.cancel
    channel := item.channel
    lane := item.lane
    path := item.path
    content_size := item.user.content_size
    content_offset := u64_sub item.user.content_offset item.user.fetched_size
    fetched_size := item.user.fetched_size
    buffer_ptr := item.buffer.ptr
    buffer_size := item.buffer.size }

/-- One iteration of the outgoing drain of _sfetch_channel_dowork: dequeue an
id from user-outgoing, copy the IO-side results into the user side, apply the
state transition, record the response snapshot, then either free the lane and
the slot (finished) or feed the id back into user-incoming. The response
callback is recorded in the log; the call sites assert that the lookup
succeeds, so a failed lookup only consumes the id. -/
def _sfetch_drain_one (pool : Pool) (chn : Channel) (log : List SfetchResponse) :
    Pool × Channel × List SfetchResponse :=
  match _sfetch_ring_dequeue chn.user_outgoing with
  | (slot_id, outgoing') =>
  let chn := { chn with user_outgoing := outgoing' }
  match _sfetch_pool_item_lookup pool slot_id with
  | none => (pool, chn, log)
  | some item =>
    let user1 : ItemUser :=
      { item.user with
        content_size := item.thread.content_size
        content_offset := item.thread.content_offset
        fetched_size := item.thread.fetched_size
        finished := item.user.finished || item.thread.finished }
    let st : SfetchState :=
      if item.thread.failed then .FAILED
      else match item.state with
        | .OPENING => if 0 < user1.content_offset then .FETCHED else .OPENED
        | .FETCHING => .FETCHED
        | s => s
    let item1 : Item := { item with state := st, user := user1 }
    let log1 := log ++ [_sfetch_make_response slot_id item1]
    if user1.finished then
      (_sfetch_pool_item_free (_sfetch_pool_item_set pool slot_id item1) slot_id,
       { chn with free_lanes := _sfetch_ring_enqueue chn.free_lanes item1.lane },
       log1)
    else
      (_sfetch_pool_item_set pool slot_id item1,
       { chn with user_incoming := _sfetch_ring_enqueue chn.user_incoming slot_id },
       log1)

/-- The fuel-bounded outgoing drain loop (the loop only dequeues from
user-outgoing, so the ring size bounds its iterations). -/
def _sfetch_drain_loop : Nat → Pool → Channel → List SfetchResponse →
    Pool × Channel × List SfetchResponse
  | 0, pool, chn, log => (pool, chn, log)
  | fuel + 1, pool, chn, log =>
      if ¬_sfetch_ring_empty chn.user_outgoing then
        match _sfetch_drain_one pool chn log with
        | (pool', chn', log') => _sfetch_drain_loop fuel pool' chn' log'
      else (pool, chn, log)

/-- _sfetch_channel_dowork (one pass over one channel on the user thread):
admission, user-incoming flag pass, hand-off to and from the IO thread
queues, then the outgoing drain with the response callbacks. -/
def _sfetch_channel_dowork (pool : Pool) (chn : Channel) (log : List SfetchResponse) :
    Pool × Channel × List SfetchResponse :=
  match _sfetch_channel_admission pool chn with
  | (pool, chn) =>
  let pool := _sfetch_incoming_pass pool chn
  match _sfetch_ring_move chn.user_incoming.num chn.user_incoming chn.thread_incoming with
  | (ui, ti) =>
  let chn := { chn with user_incoming := ui, thread_incoming := ti }
  match _sfetch_ring_move chn.thread_outgoing.num chn.thread_outgoing chn.user_outgoing with
  | (tho, uo) =>
  let chn := { chn with thread_outgoing := tho, user_outgoing := uo }
  _sfetch_drain_loop chn.user_outgoing.num pool chn log

/-- One loop iteration of the IO-thread function _sfetch_channel_thread_func
with no stop request pending: dequeue one id from the thread-incoming queue,
run the request handler, enqueue the id into the thread-outgoing queue
(_sfetch_thread_enqueue_outgoing drops the id when the outgoing ring is
full). Also returns whether the handler's asserted precondition held. -/
def _sfetch_worker_step (fs : FileSys) (pool : Pool) (chn : Channel) :
    Pool × Channel × Bool :=
  if ¬_sfetch_ring_empty chn.thread_incoming then
    match _sfetch_ring_dequeue chn.thread_incoming with
    | (slot_id, ti) =>
    match _sfetch_request_handler fs pool slot_id with
    | (pool', assert_ok) =>
    (pool',
     { chn with
       thread_incoming := ti
       thread_outgoing :=
         if ¬_sfetch_ring_full chn.thread_outgoing then
           _sfetch_ring_enqueue chn.thread_outgoing slot_id
         else chn.thread_outgoing },
     assert_ok)
  else (pool, chn, true)

/-! ## The engine (public surface) -/

/-- sfetch_desc_t. -/
structure SfetchDesc where
  max_requests : Nat
  num_channels : Nat
  num_lanes : Nat
  deriving Repr, DecidableEq, Inhabited

/-- _sfetch_def: zero means default. -/
def _sfetch_def (val def_val : Nat) : Nat := if val = 0 then def_val else val

/-- _sfetch_t together with the recorded response-callback log and the
conjunction of the asserted preconditions observed by the IO workers. -/
structure EngineState where
  setup : Bool
  valid : Bool
  in_callback : Bool
  desc : SfetchDesc
  pool : Pool
  chn : List Channel
  log : List SfetchResponse
  asserts_ok : Bool
  deriving Repr, DecidableEq, Inhabited

/-- sfetch_setup: apply defaults, clamp num_channels, initialize the pool and
one channel per configured channel index (allocation always succeeds in the
model). -/
def sfetch_setup (desc : SfetchDesc) : EngineState :=
  let max_requests := _sfetch_def desc.max_requests 128
  let num_channels0 := _sfetch_def desc.num_channels 1
  let num_lanes := _sfetch_def desc.num_lanes 1
  let num_channels :=
    if num_channels0 > SFETCH_MAX_CHANNELS then SFETCH_MAX_CHANNELS else num_channels0
  { setup := true
    valid := true
    in_callback := false
    desc := { max_requests := max_requests, num_channels := num_channels,
              num_lanes := num_lanes }
    pool := _sfetch_pool_init max_requests
    chn := List.replicate num_channels (_sfetch_channel_init max_requests num_lanes)
    log := []
    asserts_ok := true }

/-- sfetch_send: validate, allocate a pool slot, enqueue it into the chosen
channel's sent queue; on a full sent queue free the slot again. Returns the
handle (0 is the invalid handle) and the updated engine. -/
def sfetch_send (e : EngineState) (request : SfetchRequest) : Nat × EngineState :=
  if ¬e.valid then (0, e)
  else if ¬_sfetch_validate_request e.desc.num_channels request then (0, e)
  else
    match _sfetch_pool_item_alloc e.pool request with
    | (slot_id, pool') =>
    if slot_id = 0 then (0, { e with pool := pool' })
    else
      match _sfetch_channel_send (e.chn.getD request.channel default) slot_id with
      | (ok, chn') =>
      if ok then
        (slot_id, { e with pool := pool', chn := e.chn.set request.channel chn' })
      else
        (0, { e with pool := _sfetch_pool_item_free pool' slot_id })

/-- sfetch_dowork: two passes over all channels (the double-pump); the
in-callback flag is set for the duration. -/
def sfetch_dowork (e : EngineState) : EngineState :=
  if ¬e.valid then e
  else
    let e := { e with in_callback := true }
    let e := (List.range 2).foldl
      (fun e _pass =>
        (List.range e.desc.num_channels).foldl
          (fun e chn_index =>
            match _sfetch_channel_dowork e.pool (e.chn.getD chn_index default) e.log with
            | (pool', chn', log') =>
              { e with pool := pool', chn := e.chn.set chn_index chn', log := log' })
          e)
      e
    { e with in_callback := false }

/-- One IO-worker loop iteration on the worker thread of channel chn_index.
This is a schedule step that may be interleaved anywhere between the
user-thread calls. -/
def sfetch_worker (fs : FileSys) (e : EngineState) (chn_index : Nat) : EngineState :=
  match _sfetch_worker_step fs e.pool (e.chn.getD chn_index default) with
  | (pool', chn', assert_ok) =>
    { e with pool := pool', chn := e.chn.set chn_index chn',
             asserts_ok := e.asserts_ok && assert_ok }

/-- sfetch_cancel: set the user-side cancel flag, clearing pause and cont. -/
def sfetch_cancel (e : EngineState) (h : Nat) : EngineState :=
  { e with pool := (_sfetch_pool_item_update e.pool h
      (fun item => { item with user :=
        { item.user with cont := false, pause := false, cancel := true } })) }

/-- sfetch_pause: set the user-side pause flag, clearing cont. -/
def sfetch_pause (e : EngineState) (h : Nat) : EngineState :=
  { e with pool := (_sfetch_pool_item_update e.pool h
      (fun item => { item with user :=
        { item.user with pause := true, cont := false } })) }

/-- sfetch_continue: set the user-side cont flag, clearing pause. -/
def sfetch_continue (e : EngineState) (h : Nat) : EngineState :=
  { e with pool := (_sfetch_pool_item_update e.pool h
      (fun item => { item with user :=
        { item.user with cont := true, pause := false } })) }

/-- sfetch_bind_buffer on the pool (the source asserts in-callback mode and
that no buffer is currently bound). -/
def sfetch_bind_buffer (pool : Pool) (h : Nat) (buffer_ptr buffer_size : Nat) : Pool :=
  match _sfetch_pool_item_lookup pool h with
  | some item =>
      _sfetch_pool_item_set pool h
        { item with buffer := { ptr := buffer_ptr, size := buffer_size } }
  | none => pool

/-- sfetch_unbind_buffer on the pool: returns the previously bound pointer
and clears the item's buffer. -/
def sfetch_unbind_buffer (pool : Pool) (h : Nat) : Nat × Pool :=
  match _sfetch_pool_item_lookup pool h with
  | some item =>
      (item.buffer.ptr,
       _sfetch_pool_item_set pool h { item with buffer := { ptr := 0, size := 0 } })
  | none => (0, pool)

/-! ## Schedules -/

/-- One step of a schedule: a public API call on the user thread or one
IO-worker loop iteration. -/
inductive SfetchOp where
  | send (request : SfetchRequest)
  | dowork
  | worker (chn_index : Nat)
  | cancel (h : Nat)
  | pause (h : Nat)
  | cont (h : Nat)
  deriving Repr, DecidableEq

/-- Run one schedule step. -/
def sfetch_step (fs : FileSys) (e : EngineState) : SfetchOp → EngineState
  | .send request => (sfetch_send e request).2
  | .dowork => sfetch_dowork e
  | .worker chn_index => sfetch_worker fs e chn_index
  | .cancel h => sfetch_cancel e h
  | .pause h => sfetch_pause e h
  | .cont h => sfetch_continue e h

/-- Run a schedule. -/
def sfetch_run (fs : FileSys) (ops : List SfetchOp) (e : EngineState) : EngineState :=
  ops.foldl (sfetch_step fs) e

/-! ## Shared concrete fixtures for the scenario runs -/

/-- A file system whose every path holds a file of n bytes. -/
def scenario_fs (n : Nat) : FileSys := fun _ => some n

/-- An engine set up with max_requests=1, num_channels=1, num_lanes=1. -/
def engine1 : EngineState :=
  sfetch_setup { max_requests := 1, num_channels := 1, num_lanes := 1 }

/-- A request on channel 0 with a pre-bound buffer of b bytes. -/
def bufreq (b : Nat) : SfetchRequest :=
  { channel := 0, path := some ['f'], callback := true, buffer_ptr := 1,
    buffer_size := b, user_data_ptr := false, user_data_size := 0 }

/-- The handle the first send on a fresh engine returns:
_sfetch_make_id 1 1 = 65537. -/
def first_handle : Nat := 65537

/-- A minimal valid request without a buffer. -/
def reqMin : SfetchRequest :=
  { channel := 0, path := some ['x'], callback := true, buffer_ptr := 0,
    buffer_size := 0, user_data_ptr := false, user_data_size := 0 }

/-! ## C1 -/

/-- The schedule of spec scenario 5 with the cancel issued while the request
is owned by the IO thread: send a request for a 10-byte file with a 4-byte
buffer, receive the first chunk, then cancel while the worker is reading the
second chunk. -/
def c1_trace : List SfetchOp :=
  [.send (bufreq 4), .dowork, .worker 0, .dowork, .cancel first_handle,
   .worker 0, .dowork]

/-- The engine after running the c1 schedule. -/
def c1_final : EngineState := sfetch_run (scenario_fs 10) c1_trace engine1

/-- C1: the claim that a snapshot with cancelled=true always has failed=true
and finished=true is violated by the code: when sfetch_cancel is called while
the item is owned by the IO thread, the next drained snapshot reports the
completed read with fetched=true, cancelled=true, failed=false,
finished=false (contradicting the source's own comment on the cancelled
field of sfetch_response_t). -/
theorem sfetch_c1_cancelled_without_failed_finished :
    (c1_final.log.getD 1 default).cancelled = true ∧
    (c1_final.log.getD 1 default).failed = false ∧
    (c1_final.log.getD 1 default).finished = false ∧
    (c1_final.log.getD 1 default).fetched = true ∧
    c1_final.log.length = 2 := by decide

/-! ## C2 -/

/-- A request whose path has exactly n characters. -/
def pathreq (n : Nat) : SfetchRequest :=
  { channel := 0, path := some (List.replicate n 'a'), callback := true,
    buffer_ptr := 0, buffer_size := 0, user_data_ptr := false, user_data_size := 0 }

/-- C2: the claim (and the header documentation, which allows up to
SFETCH_MAX_PATH bytes including the 0-terminator) says a path of length
MAX_PATH-1 = 1023 passes validation; the validation check
strlen < SFETCH_MAX_PATH-1 rejects it, so sfetch_send returns the invalid
handle. Length 1022 passes, length 1024 fails as the claim states. -/
theorem sfetch_c2_path_length_eval :
    _sfetch_validate_request 1 (pathreq 1022) = true ∧
    _sfetch_validate_request 1 (pathreq 1023) = false ∧
    _sfetch_validate_request 1 (pathreq 1024) = false ∧
    (sfetch_send engine1 (pathreq 1023)).1 = 0 ∧
    (sfetch_send engine1 (pathreq 1023)).2 = engine1 := by decide

/-! ## C3 -/

/-- The happy-path schedule: send with a pre-bound buffer, one dowork to
dispatch, one worker pass, one dowork to drain. -/
def happy_trace : List SfetchOp := [.send (bufreq 4), .dowork, .worker 0, .dowork]

/-- C3 counterexample: a file of size 0 with a pre-bound 4-byte buffer
(buffer size at least the content size; the open and the 0-byte read both
succeed). The single callback reports opened=true, not fetched=true, because
the drain maps an OPENING item with content_offset = 0 to OPENED. -/
theorem sfetch_c3_counterexample :
    (sfetch_run (scenario_fs 0) happy_trace engine1).log.length = 1 ∧
    ((sfetch_run (scenario_fs 0) happy_trace engine1).log.getD 0 default).fetched = false ∧
    ((sfetch_run (scenario_fs 0) happy_trace engine1).log.getD 0 default).opened = true ∧
    ((sfetch_run (scenario_fs 0) happy_trace engine1).log.getD 0 default).finished = true := by
  decide

/-- The pool after send and one dowork with a pre-bound buffer of b bytes:
the item sits in slot 1, admitted to lane 0, in state OPENING. -/
def c3_pool2 (b : Nat) : Pool :=
  { size := 2
    items := [_sfetch_item_zero,
      { _sfetch_item_zero with
        handle := 65537, state := .OPENING, channel := 0, lane := 0,
        callback := true, buffer := { ptr := 1, size := b }, path := ['f'] }]
    free_slots := [], gen_ctrs := [0, 1], valid := true }

/-- The pool after the worker pass on a file of size n: the single chunk of
n bytes was read, the request is finished on the IO side, the item state is
still OPENING (the handler only advances its local copy). -/
def c3_pool3 (n b : Nat) : Pool :=
  { size := 2
    items := [_sfetch_item_zero,
      { _sfetch_item_zero with
        handle := 65537, state := .OPENING, channel := 0, lane := 0,
        callback := true, buffer := { ptr := 1, size := b }, path := ['f']
        thread := { content_size := n, content_offset := n, fetched_size := n,
                    failed := false, finished := true, file_handle := none } }]
    free_slots := [], gen_ctrs := [0, 1], valid := true }

/-- The engine after send (pre-bound buffer of b bytes) and one dowork: the
item was admitted to lane 0, moved to OPENING and handed to the IO thread. -/
def c3_E2 (b : Nat) : EngineState :=
  { setup := true, valid := true, in_callback := false
    desc := { max_requests := 1, num_channels := 1, num_lanes := 1 }
    pool := c3_pool2 b
    chn := [{ free_lanes := { head := 1, tail := 1, num := 2, buf := [0, 0] }
              user_sent := { head := 1, tail := 1, num := 2, buf := [65537, 0] }
              user_incoming := { head := 1, tail := 1, num := 2, buf := [65537, 0] }
              user_outgoing := { head := 0, tail := 0, num := 2, buf := [0, 0] }
              thread_incoming := { head := 1, tail := 0, num := 2, buf := [65537, 0] }
              thread_outgoing := { head := 0, tail := 0, num := 2, buf := [0, 0] }
              valid := true }]
    log := [], asserts_ok := true }

/-- The engine after the worker pass: the file of size n was opened, the
OPENING state fell through to FETCHING, and the single chunk of n bytes was
read (n le b), finishing the request on the IO side. -/
def c3_E3 (n b : Nat) : EngineState :=
  { setup := true, valid := true, in_callback := false
    desc := { max_requests := 1, num_channels := 1, num_lanes := 1 }
    pool := c3_pool3 n b
    chn := [{ free_lanes := { head := 1, tail := 1, num := 2, buf := [0, 0] }
              user_sent := { head := 1, tail := 1, num := 2, buf := [65537, 0] }
              user_incoming := { head := 1, tail := 1, num := 2, buf := [65537, 0] }
              user_outgoing := { head := 0, tail := 0, num := 2, buf := [0, 0] }
              thread_incoming := { head := 1, tail := 1, num := 2, buf := [65537, 0] }
              thread_outgoing := { head := 1, tail := 0, num := 2, buf := [65537, 0] }
              valid := true }]
    log := [], asserts_ok := true }

/-- The quiescent engine after the request finished and its slot and lane
were given back: every queue is empty and the pool is free again. -/
def c3_quiescent (L : List SfetchResponse) : EngineState :=
  { setup := true, valid := true, in_callback := false
    desc := { max_requests := 1, num_channels := 1, num_lanes := 1 }
    pool := { size := 2
              items := [_sfetch_item_zero, _sfetch_item_zero]
              free_slots := [1], gen_ctrs := [0, 1], valid := true }
    chn := [{ free_lanes := { head := 0, tail := 1, num := 2, buf := [0, 0] }
              user_sent := { head := 1, tail := 1, num := 2, buf := [65537, 0] }
              user_incoming := { head := 1, tail := 1, num := 2, buf := [65537, 0] }
              user_outgoing := { head := 1, tail := 1, num := 2, buf := [65537, 0] }
              thread_incoming := { head := 1, tail := 1, num := 2, buf := [65537, 0] }
              thread_outgoing := { head := 1, tail := 1, num := 2, buf := [65537, 0] }
              valid := true }]
    log := L, asserts_ok := true }

/-- The single response snapshot the pre-bound happy path delivers. -/
def c3_response (n b : Nat) : SfetchResponse :=
  { handle := 65537, opened := false, fetched := true, paused := false,
    finished := true, failed := false, cancelled := false, channel := 0, lane := 0,
    path := ['f'], content_size := n, content_offset := 0, fetched_size := n,
    buffer_ptr := 1, buffer_size := b }

/-- Send plus first dowork reach c3_E2 (independent of the file size,
which the user thread never consults). -/
theorem c3_step_send_dowork (n b : Nat) :
    sfetch_run (scenario_fs n) [.send (bufreq b), .dowork] engine1 = c3_E2 b := by
  simp [sfetch_run, sfetch_step, sfetch_send, sfetch_dowork, sfetch_setup, engine1,
    _sfetch_validate_request, _sfetch_pool_item_alloc, _sfetch_pool_item_free,
    _sfetch_pool_item_lookup, _sfetch_pool_item_set, _sfetch_pool_item_update,
    _sfetch_pool_init, _sfetch_channel_init, _sfetch_channel_send,
    _sfetch_channel_dowork, _sfetch_channel_admission, _sfetch_admit_loop,
    _sfetch_admit_one, _sfetch_incoming_pass, _sfetch_incoming_update,
    _sfetch_ring_move, _sfetch_drain_loop, _sfetch_drain_one,
    _sfetch_ring_init, _sfetch_ring_enqueue, _sfetch_ring_dequeue, _sfetch_ring_peek,
    _sfetch_ring_count, _sfetch_ring_empty, _sfetch_ring_full, _sfetch_ring_wrap,
    _sfetch_make_id, _sfetch_slot_index, _sfetch_item_init, _sfetch_path_make,
    _sfetch_item_zero, bufreq, c3_E2, c3_pool2, _sfetch_def, List.getD, List.set,
    SFETCH_MAX_PATH, SFETCH_MAX_USERDATA_UINT64, SFETCH_MAX_CHANNELS,
    _SFETCH_INVALID_LANE, U32_MOD, scenario_fs,
    List.range_succ, List.foldl_append, List.foldl_cons, List.foldl_nil]

/-- The request handler on the OPENING item with a pre-bound buffer of b
bytes and a file of size n (n le b): the open stores the size, the state
falls through to FETCHING, and the single read of n bytes at offset 0
succeeds and finishes the request. -/
theorem c3_handler (n b : Nat) (hn : 0 < n) (hb : n ≤ b) (hw : b < U64_MOD) :
    _sfetch_request_handler (scenario_fs n) (c3_pool2 b) 65537 =
      (c3_pool3 n b, true) := by
  simp only [U64_MOD] at hw
  have h1 : ¬b = 0 := by omega
  have h2 : ¬b < n := by omega
  have hsub : u64_sub n 0 = n := by
    simp only [u64_sub, U64_MOD]
    omega
  have hadd : u64_add 0 n = n := by
    simp only [u64_add, U64_MOD]
    omega
  simp [_sfetch_request_handler, _sfetch_pool_item_lookup, _sfetch_pool_item_set,
    _sfetch_file_open, _sfetch_file_read, scenario_fs, c3_pool2, c3_pool3,
    _sfetch_slot_index, _sfetch_item_zero, List.getD, List.set, hsub, hadd, hn, h1, h2]

/-- The worker pass on c3_E2: open succeeds with size n, the buffer is
pre-bound, so the handler falls through to FETCHING and reads all n bytes. -/
theorem c3_step_worker (n b : Nat) (hn : 0 < n) (hb : n ≤ b) (hw : b < U64_MOD) :
    sfetch_step (scenario_fs n) (c3_E2 b) (.worker 0) = c3_E3 n b := by
  simp [sfetch_step, sfetch_worker, _sfetch_worker_step, c3_E2, c3_E3,
    _sfetch_ring_empty, _sfetch_ring_full, _sfetch_ring_dequeue,
    _sfetch_ring_enqueue, _sfetch_ring_wrap, List.getD, List.set,
    c3_handler n b hn hb hw]

/-- The second dowork drains the finished item: one response snapshot with
fetched and finished set, reported offset 0 and fetched_size n, then the
lane and the slot are released. -/
theorem c3_step_final_dowork (n b : Nat) (hn : 0 < n) (hw : n < U64_MOD) :
    sfetch_step (scenario_fs n) (c3_E3 n b) .dowork = c3_quiescent [c3_response n b] := by
  have hsub : u64_sub n n = 0 := by
    simp only [u64_sub, U64_MOD]
    omega
  simp [sfetch_step, sfetch_dowork, c3_E3, c3_pool3, c3_quiescent, c3_response,
    _sfetch_channel_dowork, _sfetch_channel_admission, _sfetch_admit_loop,
    _sfetch_admit_one, _sfetch_incoming_pass, _sfetch_incoming_update,
    _sfetch_ring_move, _sfetch_drain_loop, _sfetch_drain_one,
    _sfetch_make_response, _sfetch_pool_item_lookup, _sfetch_pool_item_set,
    _sfetch_pool_item_update, _sfetch_pool_item_free,
    _sfetch_ring_init, _sfetch_ring_enqueue, _sfetch_ring_dequeue, _sfetch_ring_peek,
    _sfetch_ring_count, _sfetch_ring_empty, _sfetch_ring_full, _sfetch_ring_wrap,
    _sfetch_slot_index, _sfetch_item_zero, List.getD, List.set, hsub, hn,
    List.range_succ, List.foldl_append, List.foldl_cons, List.foldl_nil]

/-- dowork on the quiescent engine does nothing. -/
theorem c3_quiescent_dowork (fs : FileSys) (L : List SfetchResponse) :
    sfetch_step fs (c3_quiescent L) .dowork = c3_quiescent L := by
  simp [sfetch_step, sfetch_dowork, c3_quiescent,
    _sfetch_channel_dowork, _sfetch_channel_admission, _sfetch_admit_loop,
    _sfetch_incoming_pass, _sfetch_ring_move, _sfetch_drain_loop,
    _sfetch_ring_count, _sfetch_ring_empty, _sfetch_ring_full, _sfetch_ring_wrap,
    List.range_succ, List.foldl_append, List.foldl_cons, List.foldl_nil]

/-- A worker pass on the quiescent engine does nothing (the inbox is empty
and out-of-range channel indices see the default channel, whose update is
dropped). -/
theorem c3_quiescent_worker (fs : FileSys) (L : List SfetchResponse) (i : Nat) :
    sfetch_step fs (c3_quiescent L) (.worker i) = c3_quiescent L := by
  cases i with
  | zero =>
      simp [sfetch_step, sfetch_worker, _sfetch_worker_step, c3_quiescent,
        _sfetch_ring_empty]
  | succ j =>
      simp [sfetch_step, sfetch_worker, _sfetch_worker_step, c3_quiescent,
        _sfetch_ring_empty, List.getD, List.set,
        (by decide :
          (default : Channel).thread_incoming.head =
            (default : Channel).thread_incoming.tail)]

/-- Any further schedule of dowork and worker steps leaves the quiescent
engine unchanged. -/
theorem c3_quiescent_run (fs : FileSys) (L : List SfetchResponse) (more : List SfetchOp)
    (hmore : ∀ op ∈ more, op = SfetchOp.dowork ∨ ∃ i, op = SfetchOp.worker i) :
    sfetch_run fs more (c3_quiescent L) = c3_quiescent L := by
  induction more with
  | nil => rfl
  | cons op ops ih =>
      have hop := hmore op (by simp)
      have hstep : sfetch_step fs (c3_quiescent L) op = c3_quiescent L := by
        rcases hop with h | ⟨i, h⟩
        · rw [h, c3_quiescent_dowork]
        · rw [h, c3_quiescent_worker]
      rw [sfetch_run, List.foldl_cons, hstep]
      exact ih (fun op hop => hmore op (by simp [hop]))

/-- C3 (amended): for every request with a pre-bound buffer of size b at
least the file's content size n, with n positive (the counterexample shows
the claim fails for n = 0), the open succeeding and every read in range
succeeding, exactly one response callback is delivered, with fetched=true,
finished=true, content_offset=0 and fetched_size = content_size, no matter
how many further dowork or worker steps run. -/
theorem sfetch_c3_prebound_single_callback (n b : Nat)
    (hn : 0 < n) (hb : n ≤ b) (hw : b < U64_MOD)
    (more : List SfetchOp)
    (hmore : ∀ op ∈ more, op = SfetchOp.dowork ∨ ∃ i, op = SfetchOp.worker i) :
    (sfetch_run (scenario_fs n)
        ([.send (bufreq b), .dowork, .worker 0, .dowork] ++ more) engine1).log =
      [c3_response n b] := by
  have h4 : sfetch_run (scenario_fs n)
      [.send (bufreq b), .dowork, .worker 0, .dowork] engine1 =
      c3_quiescent [c3_response n b] := by
    have h12 := c3_step_send_dowork n b
    rw [sfetch_run] at h12 ⊢
    simp only [List.foldl_cons, List.foldl_nil] at h12 ⊢
    rw [h12, c3_step_worker n b hn hb hw]
    exact c3_step_final_dowork n b hn (lt_of_le_of_lt hb hw)
  rw [sfetch_run, List.foldl_append]
  rw [sfetch_run] at h4
  rw [h4]
  have h5 := c3_quiescent_run (scenario_fs n) [c3_response n b] more hmore
  rw [sfetch_run] at h5
  rw [h5]
  rfl

/-- Witness for the amended C3 at the spec's seed test: file size 4, buffer
size 4, no further steps. -/
theorem sfetch_c3_prebound_single_callback_witness :
    (sfetch_run (scenario_fs 4)
        ([.send (bufreq 4), .dowork, .worker 0, .dowork] ++ []) engine1).log =
      [c3_response 4 4] :=
  sfetch_c3_prebound_single_callback 4 4 (by decide) (by decide) (by decide)
    [] (by intro op hop; cases hop)

/-! ## C5 -/

/-- The streaming schedule for a 10-byte file through a 4-byte buffer:
three worker/dowork rounds. -/
def stream_trace : List SfetchOp :=
  [.send (bufreq 4), .dowork, .worker 0, .dowork, .worker 0, .dowork,
   .worker 0, .dowork]

/-- C5: the content_offset reported in every response snapshot is the item's
stored (user-side) content_offset minus the just-reported fetched_size, and
the streaming scenario (10-byte file, 4-byte buffer) reports exactly the
chunks (offset 0, size 4), (offset 4, size 4), (offset 8, size 2, finished). -/
theorem sfetch_c5_reported_offset :
    (∀ slot_id item, item.user.fetched_size ≤ item.user.content_offset →
      item.user.content_offset < U64_MOD →
      (_sfetch_make_response slot_id item).content_offset =
        item.user.content_offset - item.user.fetched_size) ∧
    (sfetch_run (scenario_fs 10) stream_trace engine1).log.map
        (fun r => (r.content_offset, r.fetched_size, r.fetched, r.finished)) =
      [(0, 4, true, false), (4, 4, true, false), (8, 2, true, true)] := by
  constructor
  · intro slot_id item hle hlt
    simp only [_sfetch_make_response, u64_sub, U64_MOD] at *
    omega
  · decide

/-- An item with stored content_offset 8 and fetched_size 4, as after the
second chunk of the streaming scenario. -/
def c5_item : Item :=
  { _sfetch_item_zero with
    handle := first_handle
    user := { _sfetch_item_zero.user with content_offset := 8, fetched_size := 4 } }

/-- Witness for C5 at a concrete item: the snapshot reports offset 8 - 4 = 4. -/
theorem sfetch_c5_reported_offset_witness :
    (_sfetch_make_response first_handle c5_item).content_offset = 8 - 4 :=
  sfetch_c5_reported_offset.1 first_handle c5_item (by decide) (by decide)

/-! ## C6 -/

/-- Spec 4.4.2 step 1: if the pause flag is set, the state becomes PAUSED and
the flag is cleared. -/
def spec_apply_pause (item : Item) : Item :=
  if item.user.pause then
    { item with state := .PAUSED, user := { item.user with pause := false } }
  else item

/-- Spec 4.4.2 step 2: if the continue flag is set, a PAUSED state becomes
FETCHED, and the flag is cleared. -/
def spec_apply_continue (item : Item) : Item :=
  if item.user.cont then
    if item.state = .PAUSED then
      { item with state := .FETCHED, user := { item.user with cont := false } }
    else { item with user := { item.user with cont := false } }
  else item

/-- Spec 4.4.2 step 3: if the cancel flag is set, the state becomes FAILED
and the user-side finished flag is set. -/
def spec_apply_cancel (item : Item) : Item :=
  if item.user.cancel then
    { item with state := .FAILED, user := { item.user with finished := true } }
  else item

/-- Spec 4.4.2 step 4: dispatch on the current state: ALLOCATED to OPENING,
OPENED and FETCHED to FETCHING, everything else (PAUSED, FAILED) unchanged. -/
def spec_state_step (item : Item) : Item :=
  match item.state with
  | .ALLOCATED => { item with state := .OPENING }
  | .OPENED => { item with state := .FETCHING }
  | .FETCHED => { item with state := .FETCHING }
  | _ => item

/-- C6: the per-item transition of the user-incoming pass applies the flags
in the order pause, continue, cancel, with the claimed effect of each, and
then the state dispatch. -/
theorem sfetch_c6_incoming_flag_order (item : Item) :
    _sfetch_incoming_update item =
      spec_state_step (spec_apply_cancel (spec_apply_continue (spec_apply_pause item))) := by
  rcases item with ⟨h, st, ch, ln, cb, bf, th, us, p⟩
  rcases us with ⟨pa, co, ca, cs, co2, fs2, fin, uds⟩
  cases pa <;> cases co <;> cases ca <;> cases st <;> rfl

/-! ## C4 -/

/-- The state of a pool from _sfetch_pool_init 1 whose only usable slot 1 is
free with generation counter g. -/
def poolGen (g : Nat) : Pool :=
  { size := 2
    items := [_sfetch_item_zero, _sfetch_item_zero]
    free_slots := [1]
    gen_ctrs := [0, g]
    valid := true }

/-- Allocate a request slot and free it again. -/
def alloc_free_cycle (p : Pool) : Pool :=
  let a := _sfetch_pool_item_alloc p reqMin
  _sfetch_pool_item_free a.2 a.1

/-- The low 16 bits of a composite id made for slot index 1 are 1. -/
theorem slot_index_make_id_one (g : Nat) :
    _sfetch_slot_index (_sfetch_make_id 1 g) = 1 := by
  simp only [_sfetch_slot_index, _sfetch_make_id, Nat.shiftLeft_eq, U32_MOD]
  omega

/-- What _sfetch_pool_item_alloc does on the one-slot pool: slot 1 is popped,
its generation counter is bumped (uint32) and the item becomes live. -/
theorem alloc_poolGen (g : Nat) :
    _sfetch_pool_item_alloc (poolGen g) reqMin =
      (_sfetch_make_id 1 ((g + 1) % U32_MOD),
       { size := 2
         items := [_sfetch_item_zero,
           { _sfetch_item_init (_sfetch_make_id 1 ((g + 1) % U32_MOD)) reqMin with
             state := .ALLOCATED }]
         free_slots := []
         gen_ctrs := [0, (g + 1) % U32_MOD]
         valid := true }) := rfl

/-- One alloc/free cycle on the one-slot pool bumps the generation counter
(uint32). -/
theorem alloc_free_cycle_poolGen (g : Nat) :
    alloc_free_cycle (poolGen g) = poolGen ((g + 1) % U32_MOD) := by
  unfold alloc_free_cycle
  rw [alloc_poolGen]
  simp only [_sfetch_pool_item_free, slot_index_make_id_one]
  rfl

/-- Iterated alloc/free cycles on the one-slot pool leave the generation
counter at (m + 1) mod 2^32. -/
theorem iterate_alloc_free_cycle (m : Nat) :
    alloc_free_cycle^[m] (poolGen 1) = poolGen ((m + 1) % U32_MOD) := by
  induction m with
  | zero => simp [poolGen, U32_MOD]
  | succ m ih =>
      rw [Function.iterate_succ_apply', ih, alloc_free_cycle_poolGen]
      congr 1
      simp only [U32_MOD]
      omega

/-- The first allocation on a fresh one-slot pool. -/
def c4_start : Nat × Pool := _sfetch_pool_item_alloc (_sfetch_pool_init 1) reqMin

/-- The handle of the first allocation (becomes stale below). -/
def c4_stale : Nat := c4_start.1

/-- The pool after the first allocation was freed again: the stale handle's
slot has been freed. -/
def c4_freed : Pool := _sfetch_pool_item_free c4_start.2 c4_start.1

/-- The pool in which the stale handle's slot was freed, then re-allocated
m + 1 times (m full alloc/free cycles followed by one allocation that leaves
the slot live). -/
def c4_pool_after (m : Nat) : Pool :=
  (_sfetch_pool_item_alloc (alloc_free_cycle^[m] c4_freed) reqMin).2

theorem c4_freed_eq : c4_freed = poolGen 1 := by decide

/-- getD at position 1 of a two-element list. -/
theorem getD_pair_one (a b d : Item) : List.getD [a, b] 1 d = b := rfl

/-- The handle field written by _sfetch_item_init. -/
theorem item_init_handle (slot_id : Nat) (request : SfetchRequest) :
    ({ _sfetch_item_init slot_id request with state := .ALLOCATED } : Item).handle
      = slot_id := rfl

/-- The generation-checked lookup of the stale id 65537 after allocating on
the one-slot pool reduces to the comparison of the composite ids. -/
theorem lookup_after_alloc (g : Nat) :
    _sfetch_pool_item_lookup (_sfetch_pool_item_alloc (poolGen g) reqMin).2 65537 =
      (if (_sfetch_make_id 1 ((g + 1) % U32_MOD) == 65537) = true
       then some { _sfetch_item_init (_sfetch_make_id 1 ((g + 1) % U32_MOD)) reqMin with
                   state := .ALLOCATED }
       else none) := by
  rw [alloc_poolGen]
  simp only [_sfetch_pool_item_lookup, _sfetch_slot_index,
    (by decide : (65537 : Nat) % 65536 = 1), getD_pair_one, item_init_handle]
  rw [if_pos (by decide : (65537 : Nat) ≠ 0)]

/-- sfetch_handle_valid for the handle 65537 after allocating on the
one-slot pool reduces to the generation comparison of the composite ids. -/
theorem handle_valid_after_alloc (g : Nat) :
    sfetch_handle_valid (_sfetch_pool_item_alloc (poolGen g) reqMin).2 65537 =
      (_sfetch_make_id 1 ((g + 1) % U32_MOD) == 65537) := by
  rw [sfetch_handle_valid, lookup_after_alloc,
    if_neg (by decide : ¬(65537 : Nat) = 0)]
  cases hb : (_sfetch_make_id 1 ((g + 1) % U32_MOD) == 65537)
  · rw [if_neg (by simp [hb])]
    rfl
  · rw [if_pos (by simp [hb])]
    rfl

/-- A composite id for slot 1 equals the stale id 65537 = make_id 1 1 exactly
when the generation is 1 modulo 2^16. -/
theorem make_id_one_eq_65537 (g : Nat) :
    (_sfetch_make_id 1 g == 65537) = (g % 65536 == 1) := by
  rw [Bool.eq_iff_iff]
  simp only [beq_iff_eq, _sfetch_make_id, Nat.shiftLeft_eq, U32_MOD,
    (by norm_num : (2 : Nat) ^ 16 = 65536)]
  omega

/-- C4 (amended): for a handle whose slot has been freed, the generation in
the stale handle matches the slot's stored handle again exactly when the
number of subsequent re-allocations of the slot is a multiple of 2^16
(the generation is truncated to 16 bits in the composite id), so
sfetch_handle_valid returns false iff that number is not such a multiple. -/
theorem sfetch_c4_stale_handle (m : Nat) :
    sfetch_handle_valid (c4_pool_after m) c4_stale = ((m + 1) % 65536 == 0) := by
  rw [show c4_pool_after m =
        (_sfetch_pool_item_alloc (poolGen ((m + 1) % U32_MOD)) reqMin).2 by
      rw [c4_pool_after, c4_freed_eq, iterate_alloc_free_cycle]]
  rw [show c4_stale = 65537 from by decide]
  rw [handle_valid_after_alloc, make_id_one_eq_65537]
  rw [Bool.eq_iff_iff]
  simp only [beq_iff_eq, U32_MOD]
  omega

/-- C4 counterexample: after the slot of the stale handle was freed and then
re-allocated 65536 times, the 16-bit generation wraps around and
sfetch_handle_valid returns true again for the stale handle. -/
theorem sfetch_c4_counterexample :
    sfetch_handle_valid (c4_pool_after 65535) c4_stale = true := by
  rw [show c4_pool_after 65535 =
        (_sfetch_pool_item_alloc (poolGen ((65535 + 1) % U32_MOD)) reqMin).2 by
      rw [c4_pool_after, c4_freed_eq, iterate_alloc_free_cycle]]
  decide

/-! ## Pool lookup lemmas -/

/-- Facts a successful generation-checked lookup yields: the id is non-zero,
the stored handle equals the id, and the slot index is in range. -/
theorem lookup_some_facts {pool : Pool} {h : Nat} {item : Item}
    (hl : _sfetch_pool_item_lookup pool h = some item) :
    h ≠ 0 ∧ item.handle = h ∧ _sfetch_slot_index h < pool.items.length := by
  simp only [_sfetch_pool_item_lookup] at hl
  split at hl
  · rename_i hne
    split at hl
    · rename_i hbeq
      cases hl
      refine ⟨hne, by exact beq_iff_eq.mp hbeq, ?_⟩
      by_contra hlen
      rw [List.getD_eq_default _ _ (Nat.le_of_not_lt hlen)] at hbeq
      exact hne (by simpa [_sfetch_item_zero] using (beq_iff_eq.mp hbeq).symm)
    · cases hl
  · cases hl

/-- Writing an item with the same handle through a live id keeps the lookup
successful and returns the written item. -/
theorem lookup_set_self {pool : Pool} {h : Nat} {item : Item} (item' : Item)
    (hl : _sfetch_pool_item_lookup pool h = some item)
    (hh : item'.handle = h) :
    _sfetch_pool_item_lookup (_sfetch_pool_item_set pool h item') h = some item' := by
  obtain ⟨hne, _, hlen⟩ := lookup_some_facts hl
  rw [_sfetch_pool_item_lookup, if_pos hne, _sfetch_pool_item_set]
  have hget : (pool.items.set (_sfetch_slot_index h) item').getD
      (_sfetch_slot_index h) _sfetch_item_zero = item' := by
    rw [List.getD_eq_getElem?_getD, List.getElem?_set_eq hlen]
    rfl
  simp only [hget, hh, if_pos (beq_iff_eq.mpr rfl)]

/-- Setting a list position to the zero item is the identity when the
position already holds the zero item (or lies out of range). -/
theorem set_zero_item_self (l : List Item) (i : Nat)
    (h : l.getD i _sfetch_item_zero = _sfetch_item_zero) :
    l.set i _sfetch_item_zero = l := by
  ext1 n
  by_cases hn : n = i
  · subst hn
    by_cases hlt : n < l.length
    · rw [List.getElem?_set_self hlt]
      rw [List.getD_eq_getElem?_getD] at h
      cases hx : l[n]? with
      | none => exact absurd hx (by simp [List.getElem?_eq_none_iff]; omega)
      | some v => rw [hx] at h; simp at h; simp [hx, h]
    · rw [List.set_eq_of_length_le (Nat.le_of_not_lt hlt)]
  · rw [List.getElem?_set_ne (Ne.symm hn)]

/-- The slot index stored in a composite id is the index it was made from,
for indices below 2^16. -/
theorem slot_index_make_id (s g : Nat) (hs : s < 65536) :
    _sfetch_slot_index (_sfetch_make_id s g) = s := by
  simp only [_sfetch_slot_index, _sfetch_make_id, Nat.shiftLeft_eq, U32_MOD,
    (by norm_num : (2 : Nat) ^ 16 = 65536)]
  omega

/-- A composite id made from a nonzero 16-bit slot index is never 0. -/
theorem make_id_ne_zero (s g : Nat) (hs0 : 0 < s) (hs : s < 65536) :
    _sfetch_make_id s g ≠ 0 := by
  simp only [_sfetch_make_id, Nat.shiftLeft_eq, U32_MOD,
    (by norm_num : (2 : Nat) ^ 16 = 65536)]
  omega

/-! ## C9 -/

/-- C9: for a live handle with no buffer bound, sfetch_bind_buffer followed
by sfetch_unbind_buffer returns exactly the bound pointer and leaves the item
with a NULL buffer pointer and zero buffer size. -/
theorem sfetch_c9_bind_unbind_roundtrip (pool : Pool) (h buffer_ptr buffer_size : Nat)
    (item : Item)
    (hl : _sfetch_pool_item_lookup pool h = some item)
    (hptr : item.buffer.ptr = 0) (hsize : item.buffer.size = 0) :
    (sfetch_unbind_buffer (sfetch_bind_buffer pool h buffer_ptr buffer_size) h).1
      = buffer_ptr ∧
    ∃ item', _sfetch_pool_item_lookup
        (sfetch_unbind_buffer (sfetch_bind_buffer pool h buffer_ptr buffer_size) h).2 h
        = some item' ∧ item'.buffer.ptr = 0 ∧ item'.buffer.size = 0 := by
  obtain ⟨hne, hhandle, hlen⟩ := lookup_some_facts hl
  have hbind : sfetch_bind_buffer pool h buffer_ptr buffer_size =
      _sfetch_pool_item_set pool h
        { item with buffer := { ptr := buffer_ptr, size := buffer_size } } := by
    rw [sfetch_bind_buffer, hl]
  have hl1 : _sfetch_pool_item_lookup
      (sfetch_bind_buffer pool h buffer_ptr buffer_size) h =
      some { item with buffer := { ptr := buffer_ptr, size := buffer_size } } := by
    rw [hbind]
    exact lookup_set_self _ hl hhandle
  have hunbind : sfetch_unbind_buffer (sfetch_bind_buffer pool h buffer_ptr buffer_size) h =
      (buffer_ptr,
       _sfetch_pool_item_set (sfetch_bind_buffer pool h buffer_ptr buffer_size) h
         { item with buffer := { ptr := 0, size := 0 } }) := by
    rw [sfetch_unbind_buffer, hl1]
  refine ⟨by rw [hunbind], ⟨{ item with buffer := { ptr := 0, size := 0 } }, ?_, rfl, rfl⟩⟩
  rw [hunbind]
  exact lookup_set_self _ hl1 hhandle

/-- The item live in the pool right after the first allocation of reqMin. -/
def c9_item : Item := { _sfetch_item_init 65537 reqMin with state := .ALLOCATED }

/-- Witness for C9: binding pointer 7 of size 9 on the freshly allocated item
and unbinding again returns 7 and clears the buffer. -/
theorem sfetch_c9_bind_unbind_roundtrip_witness :
    (_sfetch_pool_item_lookup c4_start.2 65537 = some c9_item) ∧
    ((sfetch_unbind_buffer (sfetch_bind_buffer c4_start.2 65537 7 9) 65537).1 = 7 ∧
     ∃ item', _sfetch_pool_item_lookup
        (sfetch_unbind_buffer (sfetch_bind_buffer c4_start.2 65537 7 9) 65537).2 65537
        = some item' ∧ item'.buffer.ptr = 0 ∧ item'.buffer.size = 0) :=
  ⟨by decide,
   sfetch_c9_bind_unbind_roundtrip c4_start.2 65537 7 9 c9_item
     (by decide) (by decide) (by decide)⟩

/-! ## C8 -/

/-- C8 (amended): whenever sfetch_send fails it returns the invalid handle 0
and the engine keeps its channels, its log (hence no callback is ever invoked
for the request: the allocated id reached no queue), its items, its free-slot
stack and the rest of the pool; the generation counters are unchanged except
that in the sent-queue-full case the allocated slot's counter remains
incremented. The hypothesis states the pool invariants for the top free
slot: a nonzero 16-bit index whose item is zeroed. -/
theorem sfetch_c8_send_failure (e : EngineState) (request : SfetchRequest)
    (hhead : ∀ s ∈ e.pool.free_slots.head?, 0 < s ∧ s < 65536 ∧
      e.pool.items.getD s _sfetch_item_zero = _sfetch_item_zero)
    (h0 : (sfetch_send e request).1 = 0) :
    (sfetch_send e request).2.valid = e.valid ∧
    (sfetch_send e request).2.desc = e.desc ∧
    (sfetch_send e request).2.chn = e.chn ∧
    (sfetch_send e request).2.log = e.log ∧
    (sfetch_send e request).2.pool.size = e.pool.size ∧
    (sfetch_send e request).2.pool.valid = e.pool.valid ∧
    (sfetch_send e request).2.pool.items = e.pool.items ∧
    (sfetch_send e request).2.pool.free_slots = e.pool.free_slots ∧
    ((sfetch_send e request).2.pool.gen_ctrs = e.pool.gen_ctrs ∨
      ∃ s, (sfetch_send e request).2.pool.gen_ctrs =
        e.pool.gen_ctrs.set s ((e.pool.gen_ctrs.getD s 0 + 1) % U32_MOD)) := by
  by_cases hv : e.valid = true
  · by_cases hvld : _sfetch_validate_request e.desc.num_channels request = true
    · cases hfs : e.pool.free_slots with
      | nil =>
          have hsend : sfetch_send e request = (0, { e with pool := e.pool }) := by
            simp [sfetch_send, hv, hvld, _sfetch_pool_item_alloc, hfs, _sfetch_make_id]
          rw [hsend]
          exact ⟨rfl, rfl, rfl, rfl, rfl, rfl, rfl, hfs, Or.inl rfl⟩
      | cons s rest =>
          obtain ⟨hs0, hs16, hzero⟩ := hhead s (by rw [hfs]; rfl)
          have hne : _sfetch_make_id s ((e.pool.gen_ctrs.getD s 0 + 1) % U32_MOD) ≠ 0 :=
            make_id_ne_zero _ _ hs0 hs16
          rw [List.getD_eq_getElem?_getD] at hne
          by_cases hsd : (_sfetch_channel_send (e.chn.getD request.channel default)
              (_sfetch_make_id s ((e.pool.gen_ctrs.getD s 0 + 1) % U32_MOD))).1 = true
          all_goals simp only [List.getD_eq_getElem?_getD] at hsd
          · have hsend : (sfetch_send e request).1 =
                _sfetch_make_id s ((e.pool.gen_ctrs.getD s 0 + 1) % U32_MOD) := by
              simp [sfetch_send, hv, hvld, _sfetch_pool_item_alloc, hfs, hne, hsd]
            rw [hsend] at h0
            rw [List.getD_eq_getElem?_getD] at h0
            exact absurd h0 hne
          · have hsend : sfetch_send e request =
                (0, { e with pool := (_sfetch_pool_item_free
                  { e.pool with
                    free_slots := rest
                    gen_ctrs := e.pool.gen_ctrs.set s
                      ((e.pool.gen_ctrs.getD s 0 + 1) % U32_MOD)
                    items := e.pool.items.set s
                      { _sfetch_item_init
                          (_sfetch_make_id s ((e.pool.gen_ctrs.getD s 0 + 1) % U32_MOD))
                          request with state := .ALLOCATED } }
                  (_sfetch_make_id s ((e.pool.gen_ctrs.getD s 0 + 1) % U32_MOD))) }) := by
              simp [sfetch_send, hv, hvld, _sfetch_pool_item_alloc, hfs, hne, hsd]
            rw [hsend]
            refine ⟨rfl, rfl, rfl, rfl, rfl, rfl, ?_, ?_, Or.inr ⟨s, rfl⟩⟩
            · simp only [_sfetch_pool_item_free]
              rw [slot_index_make_id s _ hs16, List.set_set]
              exact set_zero_item_self _ _ hzero
            · simp only [_sfetch_pool_item_free]
              rw [slot_index_make_id s _ hs16]
    · simp [sfetch_send, hv, hvld]
  · simp [sfetch_send, hv]

/-- An engine state in which channel 0's sent queue is full while the pool
still has a free slot: the sent-queue-full branch of sfetch_send. -/
def c8_engine : EngineState :=
  { setup := true
    valid := true
    in_callback := false
    desc := { max_requests := 1, num_channels := 1, num_lanes := 1 }
    pool := poolGen 0
    chn := [{ _sfetch_channel_init 1 1 with
              user_sent := { head := 1, tail := 0, num := 2, buf := [99, 0] } }]
    log := []
    asserts_ok := true }

/-- C8 counterexample: in the sent-queue-full case sfetch_send returns the
invalid handle and frees the slot again, but the slot's generation counter
remains incremented, so the engine state is not unchanged. -/
theorem sfetch_c8_counterexample :
    (sfetch_send c8_engine reqMin).1 = 0 ∧
    (sfetch_send c8_engine reqMin).2.pool.gen_ctrs = [0, 1] ∧
    c8_engine.pool.gen_ctrs = [0, 0] ∧
    (sfetch_send c8_engine reqMin).2 ≠ c8_engine := by decide

/-- Witness for C8 at a concrete failing send: the pool-exhausted case on a
fresh engine whose only slot is already allocated. -/
theorem sfetch_c8_send_failure_witness :
    ((∀ s ∈ ({ engine1 with pool := c4_start.2 } : EngineState).pool.free_slots.head?,
        0 < s ∧ s < 65536 ∧
        ({ engine1 with pool := c4_start.2 } : EngineState).pool.items.getD s
          _sfetch_item_zero = _sfetch_item_zero) ∧
      (sfetch_send { engine1 with pool := c4_start.2 } reqMin).1 = 0) ∧
    (sfetch_send { engine1 with pool := c4_start.2 } reqMin).2.chn =
      ({ engine1 with pool := c4_start.2 } : EngineState).chn :=
  ⟨⟨by decide, by decide⟩,
   (sfetch_c8_send_failure { engine1 with pool := c4_start.2 } reqMin
     (by decide) (by decide)).2.2.1⟩

/-! ## C10 -/

/-- The schedule that drives the first worker pass for a freshly sent
request with a pre-bound buffer. -/
def c10_trace : List SfetchOp := [.send (bufreq 4), .dowork, .worker 0]

/-- C10: for a successfully opened file of size 0 with a pre-bound buffer,
the handler falls through from OPENING to FETCHING with
content_size = content_offset = 0, violating the asserted precondition
content_size > content_offset; for a non-empty file the precondition holds. -/
theorem sfetch_c10_empty_file_assert_violated :
    (sfetch_run (scenario_fs 0) c10_trace engine1).asserts_ok = false ∧
    (sfetch_run (scenario_fs 4) c10_trace engine1).asserts_ok = true := by decide

/-! ## C7: logical ring contents and the admission pass -/

/-- Well-formedness of a ring: the backing buffer has num entries and the
head and tail indices are in range (every ring the engine builds satisfies
this, and every ring operation preserves it). -/
def RingWF (rb : Ring) : Prop :=
  rb.buf.length = rb.num ∧ rb.head < rb.num ∧ rb.tail < rb.num

/-- The logical FIFO contents of a ring, oldest (tail) first. -/
def ringToList (rb : Ring) : List Nat :=
  (List.range (_sfetch_ring_count rb)).map (_sfetch_ring_peek rb)

theorem mod_two_cases (x n : Nat) (h : x < 2 * n) :
    x % n = if x < n then x else x - n := by
  by_cases hx : x < n
  · rw [if_pos hx, Nat.mod_eq_of_lt hx]
  · rw [if_neg hx, Nat.mod_eq_sub_mod (Nat.le_of_not_lt hx)]
    exact Nat.mod_eq_of_lt (by omega)

theorem ring_count_lt {rb : Ring} (h : RingWF rb) :
    _sfetch_ring_count rb < rb.num := by
  obtain ⟨hb, hh, ht⟩ := h
  rw [_sfetch_ring_count]
  split <;> omega

theorem ring_empty_iff {rb : Ring} (h : RingWF rb) :
    _sfetch_ring_empty rb = true ↔ _sfetch_ring_count rb = 0 := by
  obtain ⟨hb, hh, ht⟩ := h
  rw [_sfetch_ring_empty, _sfetch_ring_count, beq_iff_eq]
  split <;> omega

theorem ring_full_iff {rb : Ring} (h : RingWF rb) :
    _sfetch_ring_full rb = true ↔ _sfetch_ring_count rb = rb.num - 1 := by
  obtain ⟨hb, hh, ht⟩ := h
  rw [_sfetch_ring_full, _sfetch_ring_wrap, beq_iff_eq, _sfetch_ring_count,
    mod_two_cases _ _ (by omega)]
  split_ifs <;> omega

theorem ringWF_enqueue {rb : Ring} (h : RingWF rb) (v : Nat) :
    RingWF (_sfetch_ring_enqueue rb v) := by
  obtain ⟨hb, hh, ht⟩ := h
  refine ⟨?_, ?_, ?_⟩ <;>
    simp only [_sfetch_ring_enqueue, _sfetch_ring_wrap, List.length_set]
  · exact hb
  · exact Nat.mod_lt _ (by omega)
  · exact ht

theorem ringWF_dequeue {rb : Ring} (h : RingWF rb) :
    RingWF (_sfetch_ring_dequeue rb).2 := by
  obtain ⟨hb, hh, ht⟩ := h
  refine ⟨hb, hh, ?_⟩
  simp only [_sfetch_ring_dequeue, _sfetch_ring_wrap]
  exact Nat.mod_lt _ (by omega)

theorem ring_count_enqueue {rb : Ring} (h : RingWF rb)
    (hf : ¬_sfetch_ring_full rb = true) (v : Nat) :
    _sfetch_ring_count (_sfetch_ring_enqueue rb v) = _sfetch_ring_count rb + 1 := by
  obtain ⟨hb, hh, ht⟩ := h
  have hne : (rb.head + 1) % rb.num ≠ rb.tail := by
    intro hcontra
    exact hf (by simp [_sfetch_ring_full, _sfetch_ring_wrap, hcontra])
  rw [mod_two_cases _ _ (by omega)] at hne
  simp only [_sfetch_ring_count, _sfetch_ring_enqueue, _sfetch_ring_wrap]
  rw [mod_two_cases _ _ (by omega)]
  split_ifs at hne ⊢ <;> omega

theorem ring_count_dequeue {rb : Ring} (h : RingWF rb)
    (he : ¬_sfetch_ring_empty rb = true) :
    _sfetch_ring_count (_sfetch_ring_dequeue rb).2 = _sfetch_ring_count rb - 1 := by
  obtain ⟨hb, hh, ht⟩ := h
  have hne : rb.head ≠ rb.tail := by
    intro hcontra
    exact he (by simp [_sfetch_ring_empty, hcontra])
  simp only [_sfetch_ring_count, _sfetch_ring_dequeue, _sfetch_ring_wrap]
  rw [mod_two_cases _ _ (by omega)]
  split_ifs <;> omega

theorem ring_peek_enqueue_lt {rb : Ring} (h : RingWF rb) (v : Nat) (i : Nat)
    (hi : i < _sfetch_ring_count rb) :
    _sfetch_ring_peek (_sfetch_ring_enqueue rb v) i = _sfetch_ring_peek rb i := by
  obtain ⟨hb, hh, ht⟩ := h
  have hcount : _sfetch_ring_count rb < rb.num := ring_count_lt ⟨hb, hh, ht⟩
  have hidx : rb.head ≠ (rb.tail + i) % rb.num := by
    have hc : _sfetch_ring_count rb =
        if rb.head ≥ rb.tail then rb.head - rb.tail
        else rb.head + rb.num - rb.tail := rfl
    rw [mod_two_cases _ _ (by omega)]
    split_ifs at hc ⊢ <;> omega
  simp only [_sfetch_ring_peek, _sfetch_ring_enqueue, _sfetch_ring_wrap]
  rw [List.getD_eq_getElem?_getD, List.getD_eq_getElem?_getD,
    List.getElem?_set_ne hidx]

theorem ring_peek_enqueue_last {rb : Ring} (h : RingWF rb) (v : Nat) :
    _sfetch_ring_peek (_sfetch_ring_enqueue rb v) (_sfetch_ring_count rb) = v := by
  obtain ⟨hb, hh, ht⟩ := h
  have hcnt : _sfetch_ring_count rb < rb.num := ring_count_lt ⟨hb, hh, ht⟩
  have hidx : (rb.tail + _sfetch_ring_count rb) % rb.num = rb.head := by
    have hc : _sfetch_ring_count rb =
        if rb.head ≥ rb.tail then rb.head - rb.tail
        else rb.head + rb.num - rb.tail := rfl
    rw [mod_two_cases _ _ (by omega)]
    split_ifs at hc ⊢ <;> omega
  simp only [_sfetch_ring_peek, _sfetch_ring_enqueue, _sfetch_ring_wrap]
  rw [hidx, List.getD_eq_getElem?_getD, List.getElem?_set_self (by omega)]
  rfl

theorem ring_peek_dequeue {rb : Ring} (h : RingWF rb) (i : Nat) :
    _sfetch_ring_peek (_sfetch_ring_dequeue rb).2 i = _sfetch_ring_peek rb (i + 1) := by
  obtain ⟨hb, hh, ht⟩ := h
  simp only [_sfetch_ring_peek, _sfetch_ring_dequeue, _sfetch_ring_wrap]
  rw [Nat.mod_add_mod]
  congr 2
  omega

theorem ring_dequeue_fst {rb : Ring} (h : RingWF rb) :
    (_sfetch_ring_dequeue rb).1 = _sfetch_ring_peek rb 0 := by
  obtain ⟨hb, hh, ht⟩ := h
  simp only [_sfetch_ring_dequeue, _sfetch_ring_peek, _sfetch_ring_wrap,
    Nat.add_zero, Nat.mod_eq_of_lt ht]

theorem ringToList_enqueue {rb : Ring} (h : RingWF rb)
    (hf : ¬_sfetch_ring_full rb = true) (v : Nat) :
    ringToList (_sfetch_ring_enqueue rb v) = ringToList rb ++ [v] := by
  rw [ringToList, ringToList, ring_count_enqueue h hf, List.range_succ,
    List.map_append]
  congr 1
  · exact List.map_congr_left fun i hi =>
      ring_peek_enqueue_lt h v i (List.mem_range.mp hi)
  · simp [ring_peek_enqueue_last h v]

theorem ringToList_dequeue {rb : Ring} (h : RingWF rb)
    (he : ¬_sfetch_ring_empty rb = true) :
    ringToList rb = (_sfetch_ring_dequeue rb).1 :: ringToList (_sfetch_ring_dequeue rb).2 := by
  have hc : _sfetch_ring_count rb = _sfetch_ring_count (_sfetch_ring_dequeue rb).2 + 1 := by
    rw [ring_count_dequeue h he]
    have := (ring_empty_iff h).not.mp he
    omega
  rw [ringToList, ringToList, hc, List.range_succ_eq_map, List.map_cons,
    List.map_map, ring_dequeue_fst h]
  congr 1
  refine List.map_congr_left fun i _ => ?_
  simp only [Function.comp_apply]
  exact (ring_peek_dequeue h i).symm

/-- Writing an item through a live id leaves the lookup of every other id
unchanged: a different id on a different slot sees an untouched entry, and a
different id on the same slot failed the generation check before and still
fails it. -/
theorem lookup_set_other {pool : Pool} {id0 : Nat} {item0 : Item} (item' : Item)
    (id : Nat) (h0 : _sfetch_pool_item_lookup pool id0 = some item0)
    (hh : item'.handle = id0) (hne : id ≠ id0) :
    _sfetch_pool_item_lookup (_sfetch_pool_item_set pool id0 item') id =
      _sfetch_pool_item_lookup pool id := by
  obtain ⟨hne0, hhand0, hlen⟩ := lookup_some_facts h0
  by_cases hz : id = 0
  · subst hz
    simp [_sfetch_pool_item_lookup]
  · simp only [_sfetch_pool_item_lookup, _sfetch_pool_item_set, if_pos hz]
    by_cases hs : _sfetch_slot_index id = _sfetch_slot_index id0
    · have hstored : (pool.items.getD (_sfetch_slot_index id) _sfetch_item_zero).handle
          = id0 := by
        rw [hs]
        have hl := h0
        simp only [_sfetch_pool_item_lookup, if_pos hne0] at hl
        split at hl
        · rw [Option.some.inj hl]
          exact hhand0
        · cases hl
      have hgd : (pool.items.set (_sfetch_slot_index id0) item').getD
          (_sfetch_slot_index id) _sfetch_item_zero = item' := by
        rw [hs, List.getD_eq_getElem?_getD, List.getElem?_set_self hlen]
        rfl
      rw [hgd]
      rw [if_neg (by simp only [beq_iff_eq, hh]; exact fun h => hne h.symm)]
      rw [if_neg (by rw [hstored]; simp only [beq_iff_eq]; exact fun h => hne h.symm)]
    · have hgd : (pool.items.set (_sfetch_slot_index id0) item').getD
          (_sfetch_slot_index id) _sfetch_item_zero =
          pool.items.getD (_sfetch_slot_index id) _sfetch_item_zero := by
        rw [List.getD_eq_getElem?_getD, List.getElem?_set_ne (Ne.symm hs),
          ← List.getD_eq_getElem?_getD]
      rw [hgd]

/-- What n iterations of the admission loop do, given that the rings are
well-formed, both source rings hold at least n entries, the user-incoming
ring has room, and the first n sent ids are distinct live handles: n ids are
popped from the sent queue, n lanes are popped from the free-lanes queue in
the same order, each id's item receives the paired lane (and nothing else of
the item changes), the ids are appended to the user-incoming queue in order,
the other queues are untouched, and items outside the admitted ids are
untouched. -/
theorem admit_loop_spec (n : Nat) :
    ∀ (pool : Pool) (chn : Channel),
    RingWF chn.user_sent → RingWF chn.free_lanes → RingWF chn.user_incoming →
    n ≤ _sfetch_ring_count chn.user_sent →
    n ≤ _sfetch_ring_count chn.free_lanes →
    _sfetch_ring_count chn.user_incoming + n < chn.user_incoming.num →
    (∀ id ∈ (ringToList chn.user_sent).take n,
      (_sfetch_pool_item_lookup pool id).isSome = true) →
    ((ringToList chn.user_sent).take n).Nodup →
    ringToList (_sfetch_admit_loop n pool chn).2.user_sent =
        (ringToList chn.user_sent).drop n ∧
    ringToList (_sfetch_admit_loop n pool chn).2.free_lanes =
        (ringToList chn.free_lanes).drop n ∧
    ringToList (_sfetch_admit_loop n pool chn).2.user_incoming =
        ringToList chn.user_incoming ++ (ringToList chn.user_sent).take n ∧
    (_sfetch_admit_loop n pool chn).2.user_outgoing = chn.user_outgoing ∧
    (_sfetch_admit_loop n pool chn).2.thread_incoming = chn.thread_incoming ∧
    (_sfetch_admit_loop n pool chn).2.thread_outgoing = chn.thread_outgoing ∧
    (∀ p ∈ ((ringToList chn.user_sent).take n).zip
        ((ringToList chn.free_lanes).take n),
      ∀ item, _sfetch_pool_item_lookup pool p.1 = some item →
        _sfetch_pool_item_lookup (_sfetch_admit_loop n pool chn).1 p.1 =
          some { item with lane := p.2 }) ∧
    (∀ id, id ∉ (ringToList chn.user_sent).take n →
      _sfetch_pool_item_lookup (_sfetch_admit_loop n pool chn).1 id =
        _sfetch_pool_item_lookup pool id) := by
  induction n with
  | zero =>
      intro pool chn _ _ _ _ _ _ _ _
      simp [_sfetch_admit_loop]
  | succ n ih =>
      intro pool chn hws hwl hwi hle1 hle2 hroom hlive hnodup
      have hes : ¬_sfetch_ring_empty chn.user_sent = true := by
        intro hc
        rw [ring_empty_iff hws] at hc
        omega
      have hel : ¬_sfetch_ring_empty chn.free_lanes = true := by
        intro hc
        rw [ring_empty_iff hwl] at hc
        omega
      have hfi : ¬_sfetch_ring_full chn.user_incoming = true := by
        intro hc
        rw [ring_full_iff hwi] at hc
        omega
      have hdeqs := ringToList_dequeue hws hes
      have hdeql := ringToList_dequeue hwl hel
      have htake : (ringToList chn.user_sent).take (n + 1) =
          (_sfetch_ring_dequeue chn.user_sent).1 ::
            (ringToList (_sfetch_ring_dequeue chn.user_sent).2).take n := by
        rw [hdeqs, List.take_succ_cons]
      have htakel : (ringToList chn.free_lanes).take (n + 1) =
          (_sfetch_ring_dequeue chn.free_lanes).1 ::
            (ringToList (_sfetch_ring_dequeue chn.free_lanes).2).take n := by
        rw [hdeql, List.take_succ_cons]
      have hmem0 : (_sfetch_ring_dequeue chn.user_sent).1 ∈
          (ringToList chn.user_sent).take (n + 1) := by
        rw [htake]
        exact List.mem_cons_self _ _
      obtain ⟨item0, h0⟩ := Option.isSome_iff_exists.mp
        (hlive _ hmem0)
      have hhand0 : item0.handle = (_sfetch_ring_dequeue chn.user_sent).1 :=
        (lookup_some_facts h0).2.1
      have hnotin : (_sfetch_ring_dequeue chn.user_sent).1 ∉
          (ringToList (_sfetch_ring_dequeue chn.user_sent).2).take n := by
        rw [htake] at hnodup
        exact (List.nodup_cons.mp hnodup).1
      have hnodup' : ((ringToList (_sfetch_ring_dequeue chn.user_sent).2).take n).Nodup := by
        rw [htake] at hnodup
        exact (List.nodup_cons.mp hnodup).2
      have hupd : _sfetch_pool_item_update pool (_sfetch_ring_dequeue chn.user_sent).1
          (fun it => { it with lane := (_sfetch_ring_dequeue chn.free_lanes).1 }) =
          _sfetch_pool_item_set pool (_sfetch_ring_dequeue chn.user_sent).1
            { item0 with lane := (_sfetch_ring_dequeue chn.free_lanes).1 } := by
        simp only [_sfetch_pool_item_update, h0]
      have hone : _sfetch_admit_loop (n + 1) pool chn = _sfetch_admit_loop n
          (_sfetch_pool_item_update pool (_sfetch_ring_dequeue chn.user_sent).1
            (fun it => { it with lane := (_sfetch_ring_dequeue chn.free_lanes).1 }))
          { chn with
            user_sent := (_sfetch_ring_dequeue chn.user_sent).2
            free_lanes := (_sfetch_ring_dequeue chn.free_lanes).2
            user_incoming := _sfetch_ring_enqueue chn.user_incoming
              (_sfetch_ring_dequeue chn.user_sent).1 } := rfl
      have hlive' : ∀ id ∈ (ringToList (_sfetch_ring_dequeue chn.user_sent).2).take n,
          (_sfetch_pool_item_lookup
            (_sfetch_pool_item_update pool (_sfetch_ring_dequeue chn.user_sent).1
              (fun it => { it with lane := (_sfetch_ring_dequeue chn.free_lanes).1 }))
            id).isSome = true := by
        intro id hid
        have hidne : id ≠ (_sfetch_ring_dequeue chn.user_sent).1 := by
          intro hcontra
          exact hnotin (hcontra ▸ hid)
        rw [hupd, lookup_set_other
          { item0 with lane := (_sfetch_ring_dequeue chn.free_lanes).1 } id h0 hhand0 hidne]
        refine hlive id ?_
        rw [htake]
        exact List.mem_cons_of_mem _ hid
      have hcs := ring_count_dequeue hws hes
      have hcl := ring_count_dequeue hwl hel
      have hci := ring_count_enqueue hwi hfi (_sfetch_ring_dequeue chn.user_sent).1
      have hnum : (_sfetch_ring_enqueue chn.user_incoming
          (_sfetch_ring_dequeue chn.user_sent).1).num = chn.user_incoming.num := rfl
      obtain ⟨ihs, ihl, ihi, iho, ihti, ihto, ihz, ihu⟩ :=
        ih (_sfetch_pool_item_update pool (_sfetch_ring_dequeue chn.user_sent).1
              (fun it => { it with lane := (_sfetch_ring_dequeue chn.free_lanes).1 }))
           { chn with
             user_sent := (_sfetch_ring_dequeue chn.user_sent).2
             free_lanes := (_sfetch_ring_dequeue chn.free_lanes).2
             user_incoming := _sfetch_ring_enqueue chn.user_incoming
               (_sfetch_ring_dequeue chn.user_sent).1 }
           (ringWF_dequeue hws) (ringWF_dequeue hwl) (ringWF_enqueue hwi _)
           (by dsimp only; omega) (by dsimp only; omega) (by dsimp only; omega)
           (by dsimp only; exact hlive') (by dsimp only; exact hnodup')
      dsimp only at ihs ihl ihi iho ihti ihto ihz ihu
      rw [hone]
      refine ⟨?_, ?_, ?_, ?_, ?_, ?_, ?_, ?_⟩
      · rw [ihs, hdeqs, List.drop_succ_cons]
      · rw [ihl, hdeql, List.drop_succ_cons]
      · rw [ihi, ringToList_enqueue hwi hfi, htake]
        simp [List.append_assoc]
      · exact iho
      · exact ihti
      · exact ihto
      · intro p hp item hitem
        rw [htake, htakel, List.zip_cons_cons] at hp
        rcases List.mem_cons.mp hp with hp0 | hp'
        · subst hp0
          rw [h0] at hitem
          cases hitem
          have hstep : _sfetch_pool_item_lookup
              (_sfetch_pool_item_update pool (_sfetch_ring_dequeue chn.user_sent).1
                (fun it => { it with lane := (_sfetch_ring_dequeue chn.free_lanes).1 }))
              (_sfetch_ring_dequeue chn.user_sent).1 =
              some { item0 with lane := (_sfetch_ring_dequeue chn.free_lanes).1 } := by
            rw [hupd]
            exact lookup_set_self _ h0 hhand0
          rw [ihu _ hnotin, hstep]
        · have hmem1 : p.1 ∈ (ringToList (_sfetch_ring_dequeue chn.user_sent).2).take n :=
            (List.of_mem_zip hp').1
          have hidne : p.1 ≠ (_sfetch_ring_dequeue chn.user_sent).1 := by
            intro hcontra
            exact hnotin (hcontra ▸ hmem1)
          have hpool' : _sfetch_pool_item_lookup
              (_sfetch_pool_item_update pool (_sfetch_ring_dequeue chn.user_sent).1
                (fun it => { it with lane := (_sfetch_ring_dequeue chn.free_lanes).1 }))
              p.1 = some item := by
            rw [hupd, lookup_set_other
              { item0 with lane := (_sfetch_ring_dequeue chn.free_lanes).1 } p.1 h0 hhand0 hidne]
            exact hitem
          exact ihz p hp' item hpool'
      · intro id hid
        have hidne : id ≠ (_sfetch_ring_dequeue chn.user_sent).1 := by
          intro hcontra
          subst hcontra
          exact hid hmem0
        have hid' : id ∉ (ringToList (_sfetch_ring_dequeue chn.user_sent).2).take n := by
          intro hc
          refine hid ?_
          rw [htake]
          exact List.mem_cons_of_mem _ hc
        rw [ihu id hid', hupd, lookup_set_other
          { item0 with lane := (_sfetch_ring_dequeue chn.free_lanes).1 } id h0 hhand0 hidne]

/-- C7: one admission pass of _sfetch_channel_dowork admits exactly
n = min(sent.count, free-lanes.count) items: the first n ids leave the sent
queue, n lanes leave the free-lanes queue, each admitted item gets the
paired lane written (its state and every other field unchanged, so an
ALLOCATED item stays ALLOCATED), the ids enter the user-incoming queue in
FIFO order, and no other queue or item changes. -/
theorem sfetch_c7_admission (pool : Pool) (chn : Channel)
    (hws : RingWF chn.user_sent) (hwl : RingWF chn.free_lanes)
    (hwi : RingWF chn.user_incoming)
    (hroom : _sfetch_ring_count chn.user_incoming +
      min (_sfetch_ring_count chn.user_sent) (_sfetch_ring_count chn.free_lanes) <
      chn.user_incoming.num)
    (hlive : ∀ id ∈ ringToList chn.user_sent,
      (_sfetch_pool_item_lookup pool id).isSome = true)
    (hnodup : (ringToList chn.user_sent).Nodup) :
    ringToList (_sfetch_channel_admission pool chn).2.user_sent =
      (ringToList chn.user_sent).drop
        (min (_sfetch_ring_count chn.user_sent) (_sfetch_ring_count chn.free_lanes)) ∧
    ringToList (_sfetch_channel_admission pool chn).2.free_lanes =
      (ringToList chn.free_lanes).drop
        (min (_sfetch_ring_count chn.user_sent) (_sfetch_ring_count chn.free_lanes)) ∧
    ringToList (_sfetch_channel_admission pool chn).2.user_incoming =
      ringToList chn.user_incoming ++ (ringToList chn.user_sent).take
        (min (_sfetch_ring_count chn.user_sent) (_sfetch_ring_count chn.free_lanes)) ∧
    (_sfetch_channel_admission pool chn).2.user_outgoing = chn.user_outgoing ∧
    (_sfetch_channel_admission pool chn).2.thread_incoming = chn.thread_incoming ∧
    (_sfetch_channel_admission pool chn).2.thread_outgoing = chn.thread_outgoing ∧
    (∀ p ∈ ((ringToList chn.user_sent).take
        (min (_sfetch_ring_count chn.user_sent) (_sfetch_ring_count chn.free_lanes))).zip
        ((ringToList chn.free_lanes).take
        (min (_sfetch_ring_count chn.user_sent) (_sfetch_ring_count chn.free_lanes))),
      ∀ item, _sfetch_pool_item_lookup pool p.1 = some item →
        _sfetch_pool_item_lookup (_sfetch_channel_admission pool chn).1 p.1 =
          some { item with lane := p.2 }) ∧
    (∀ id, id ∉ (ringToList chn.user_sent).take
        (min (_sfetch_ring_count chn.user_sent) (_sfetch_ring_count chn.free_lanes)) →
      _sfetch_pool_item_lookup (_sfetch_channel_admission pool chn).1 id =
        _sfetch_pool_item_lookup pool id) := by
  have hmin : _sfetch_channel_admission pool chn =
      _sfetch_admit_loop
        (min (_sfetch_ring_count chn.user_sent) (_sfetch_ring_count chn.free_lanes))
        pool chn := by
    rw [_sfetch_channel_admission]
    congr 1
    split_ifs <;> omega
  rw [hmin]
  exact admit_loop_spec
    (min (_sfetch_ring_count chn.user_sent) (_sfetch_ring_count chn.free_lanes))
    pool chn hws hwl hwi (Nat.min_le_left _ _) (Nat.min_le_right _ _) hroom
    (fun id hid => hlive id (List.take_subset _ _ hid))
    (hnodup.sublist (List.take_sublist _ _))

/-- A concrete channel for the C7 witness: one id (65537) waiting in the
sent queue, one free lane, everything else empty. -/
def c7_chn : Channel :=
  { free_lanes := { head := 1, tail := 0, num := 2, buf := [0, 0] }
    user_sent := { head := 1, tail := 0, num := 2, buf := [65537, 0] }
    user_incoming := _sfetch_ring_init 1
    user_outgoing := _sfetch_ring_init 1
    thread_incoming := _sfetch_ring_init 1
    thread_outgoing := _sfetch_ring_init 1
    valid := true }

/-- Witness for C7 on a concrete channel and pool: the single waiting id is
admitted with lane 0 appended to the user-incoming queue. -/
theorem sfetch_c7_admission_witness :
    (RingWF c7_chn.user_sent ∧ RingWF c7_chn.free_lanes ∧ RingWF c7_chn.user_incoming ∧
      _sfetch_ring_count c7_chn.user_incoming +
        min (_sfetch_ring_count c7_chn.user_sent) (_sfetch_ring_count c7_chn.free_lanes) <
        c7_chn.user_incoming.num ∧
      (∀ id ∈ ringToList c7_chn.user_sent,
        (_sfetch_pool_item_lookup c4_start.2 id).isSome = true) ∧
      (ringToList c7_chn.user_sent).Nodup) ∧
    ringToList (_sfetch_channel_admission c4_start.2 c7_chn).2.user_incoming =
      ringToList c7_chn.user_incoming ++ (ringToList c7_chn.user_sent).take
        (min (_sfetch_ring_count c7_chn.user_sent) (_sfetch_ring_count c7_chn.free_lanes)) :=
  ⟨⟨⟨by decide, by decide, by decide⟩, ⟨by decide, by decide, by decide⟩,
    ⟨by decide, by decide, by decide⟩, by decide, by decide, by decide⟩,
   (sfetch_c7_admission c4_start.2 c7_chn ⟨by decide, by decide, by decide⟩
     ⟨by decide, by decide, by decide⟩ ⟨by decide, by decide, by decide⟩
     (by decide) (by decide) (by decide)).2.2.1⟩

end SokolFetch
